import Mathlib

/-!
Verification of the divergence-classifier core of `examples/gotypes/main.go`
(a go-fuzz differential-testing oracle for Go front ends).

The external collaborators (the go/types front end `gotypes`, the external
`gccgo` subprocess adapter, and the `format.Source` formatter) are modelled as
function parameters producing the same verdict shape the Go code consumes:
`Option String` (`none` = the implementation accepted the input, `some msg` =
it rejected/faulted with output text `msg`), and
`String → Except String String` for the formatter.  Everything the classifier
itself does — the pre-filter and message patterns (Go `regexp`), the ordered
suppression rules, the crash-signature checks, the disagreement check and the
reformat round-trip tail — is embedded directly from the source.

Go `regexp.Match` is embedded with a small Brzozowski-derivative matcher over
`Char` lists; each `regexp.MustCompile` pattern of the source is translated
into a `Re` term, and `reSearchStr` is the unanchored "a match exists
somewhere" semantics of Go's `Match`/`MatchString`.
-/

namespace GoTypes

/-- Regular expressions over characters; `cls` is a character class given by a
decidable predicate (all classes in the source are ASCII). -/
inductive Re where
  | emp : Re
  | eps : Re
  | cls (p : Char → Bool) : Re
  | cat (a b : Re) : Re
  | alt (a b : Re) : Re
  | star (a : Re) : Re

/-- Does the regular expression accept the empty string? -/
def nullable : Re → Bool
  | .emp => false
  | .eps => true
  | .cls _ => false
  | .cat a b => nullable a && nullable b
  | .alt a b => nullable a || nullable b
  | .star _ => true

/-- Smart concatenation (keeps derivative terms small). -/
def rcat : Re → Re → Re
  | .emp, _ => .emp
  | _, .emp => .emp
  | .eps, b => b
  | a, .eps => a
  | a, b => .cat a b

/-- Smart alternation (keeps derivative terms small). -/
def ralt : Re → Re → Re
  | .emp, b => b
  | a, .emp => a
  | a, b => .alt a b

/-- Brzozowski derivative of a regular expression by one character. -/
def deriv (c : Char) : Re → Re
  | .emp => .emp
  | .eps => .emp
  | .cls p => if p c then .eps else .emp
  | .cat a b => ralt (rcat (deriv c a) b) (if nullable a then deriv c b else .emp)
  | .alt a b => ralt (deriv c a) (deriv c b)
  | .star a => rcat (deriv c a) (.star a)

/-- Does some prefix of the character list match the regular expression? -/
def matchHere : Re → List Char → Bool
  | r, [] => nullable r
  | r, c :: t => nullable r || matchHere (deriv c r) t

/-- Does the regular expression match somewhere in the character list
(Go `regexp.Match` / `MatchString` unanchored semantics)? -/
def reSearch : Re → List Char → Bool
  | r, [] => nullable r
  | r, c :: t => matchHere r (c :: t) || reSearch r t

/-- Unanchored regular-expression search on a string. -/
def reSearchStr (r : Re) (s : String) : Bool :=
  reSearch r s.toList

/-- Does the needle occur at the head of the haystack? -/
def leadsWith : List Char → List Char → Bool
  | [], _ => true
  | _ :: _, [] => false
  | a :: as, b :: bs => a == b && leadsWith as bs

/-- Does the needle occur somewhere in the haystack? -/
def containsSeq : List Char → List Char → Bool
  | [], needle => leadsWith needle []
  | c :: t, needle => leadsWith needle (c :: t) || containsSeq t needle

/-- Go `strings.Contains s sub` / `bytes.Contains` on the string model. -/
def strContains (s sub : String) : Bool :=
  containsSeq s.toList sub.toList

/-- Go `err != nil && strings.Contains(err.Error(), sub)` for an optional
error. -/
def errContains (e : Option String) (sub : String) : Bool :=
  match e with
  | some msg => strContains msg sub
  | none => false

/-- Go `err != nil && re.MatchString(err.Error())` for an optional error. -/
def errMatches (r : Re) (e : Option String) : Bool :=
  match e with
  | some msg => reSearchStr r msg
  | none => false

/-- Single-character regular expression. -/
def chr (c : Char) : Re :=
  .cls (fun x => x == c)

/-- Literal-string regular expression. -/
def lit (s : String) : Re :=
  s.toList.foldr (fun c r => Re.cat (chr c) r) Re.eps

/-- Character class listing its members. -/
def oneOf (s : String) : Re :=
  .cls (fun x => s.toList.any (fun y => y == x))

/-- Go regexp `[0-9]`. -/
def digit : Re :=
  .cls Char.isDigit

/-- Go regexp `.` (any character except newline). -/
def dot : Re :=
  .cls (fun x => !(x == '\n'))

/-- Go regexp `r+`. -/
def rplus (r : Re) : Re :=
  .cat r (.star r)

/-- Go regexp `r?`. -/
def ropt (r : Re) : Re :=
  .alt .eps r

/-- Source pattern `bigNum`: `(\.[0-9]*)|([0-9]+)[eE]\-?\+?[0-9]{3,}`
(golang.org issue 11327 pre-filter). -/
def bigNum : Re :=
  .alt (.cat (chr '.') (.star digit))
    (.cat (rplus digit)
      (.cat (oneOf "eE")
        (.cat (ropt (chr '-'))
          (.cat (ropt (chr '+'))
            (.cat digit (.cat digit (rplus digit)))))))

/-- Source pattern `formatBug1`: `\*/[ \t\n\r\f\v]*;` (issue 11274). -/
def formatBug1 : Re :=
  .cat (chr '*') (.cat (chr '/') (.cat (.star (oneOf " \t\n\r\x0c\x0b")) (chr ';')))

/-- Source pattern `formatBug2`: `;[ \t\n\r\f\v]*/\*` (issue 11274). -/
def formatBug2 : Re :=
  .cat (chr ';') (.cat (.star (oneOf " \t\n\r\x0c\x0b")) (.cat (chr '/') (chr '*')))

/-- Source pattern `issue11528`: `/\*(.*\n)+.*\*/`. -/
def issue11528 : Re :=
  .cat (lit "/*") (.cat (rplus (.cat (.star dot) (chr '\n'))) (.cat (.star dot) (lit "*/")))

/-- Source pattern `issue11533`: `[ \r\t\n=\+\-\*\^\/\(,]0[0-9]+[ieE]`. -/
def issue11533 : Re :=
  .cat (oneOf " \r\t\n=+-*^/(,") (.cat (chr '0') (.cat (rplus digit) (oneOf "ieE")))

/-- Source pattern `issue11531`: `,[ \t\r\n]*,` (gccgo hang pre-filter). -/
def issue11531 : Re :=
  .cat (chr ',') (.cat (.star (oneOf " \t\r\n")) (chr ','))

/-- Source pattern `fpRounding`: ` \(untyped float constant .*\) truncated to `. -/
def fpRounding : Re :=
  .cat (lit " (untyped float constant ") (.cat (.star dot) (lit ") truncated to "))

/-- Source pattern `gcCrash`:
`\n/tmp/fuzz\.gc[0-9]+:[0-9]+: internal compiler error: `. -/
def gcCrash : Re :=
  .cat (lit "\n/tmp/fuzz.gc")
    (.cat (rplus digit) (.cat (chr ':') (.cat (rplus digit) (lit ": internal compiler error: "))))

/-- Source pattern `gccgoCrash`: `\ngo1: internal compiler error:`. -/
def gccgoCrash : Re :=
  lit "\ngo1: internal compiler error:"

/-- Source pattern `asanCrash`: `\n==[0-9]+==ERROR: AddressSanitizer: `. -/
def asanCrash : Re :=
  .cat (lit "\n==") (.cat (rplus digit) (lit "==ERROR: AddressSanitizer: "))

/-- Result of one `Fuzz` evaluation: `ret n` is a normal return of `n`
(0 = skip/uninteresting, 1 = pass), `panicked msg` is a Go `panic` (the
oracle's Fatal disposition). -/
inductive FuzzResult where
  | ret (n : Nat) : FuzzResult
  | panicked (msg : String) : FuzzResult
deriving DecidableEq

/-- Is the result a panic (Fatal escalation)? -/
def FuzzResult.isFatal : FuzzResult → Bool
  | .ret _ => false
  | .panicked _ => true

/-- Known-asymmetric-divergence suppressions between go/types and gc,
source lines 51-77 (each `if ... { return 0 }` guard, in source order). -/
def step2A (goErr gcErr : Option String) : Bool :=
  (goErr.isNone && errContains gcErr "line number out of range") ||
  (goErr.isNone && errContains gcErr "stupid shift:") ||
  (gcErr.isNone && errContains goErr "untyped float constant") ||
  (goErr.isNone && errContains gcErr "overflow in int -> string") ||
  (gcErr.isNone && errContains goErr "illegal character U+") ||
  (goErr.isNone && errContains gcErr "larger than address space") ||
  (goErr.isNone && errContains gcErr "non-canonical import path")

/-- Suppressions for "gccgo accepts, go/types rejects", source lines 79-132
(the outer guard and the inner `return 0` conditions, in source order). -/
def step2B (data : String) (goErr gccgoErr : Option String) : Bool :=
  gccgoErr.isNone && goErr.isSome &&
    (errContains goErr "invalid operation: stupid shift count" ||
     ((strContains data "//line" || strContains data "/*") &&
       (errContains goErr "illegal UTF-8 encoding" || errContains goErr "illegal character NUL")) ||
     errContains goErr "invalid operation: operator ^ not defined for" ||
     errMatches fpRounding goErr ||
     (strContains data "_" &&
       (errContains goErr ": undeclared name: " || errContains goErr "invalid array length")) ||
     errContains goErr "not enough arguments for complex" ||
     errContains goErr "operator | not defined for" ||
     errContains goErr "nil (untyped nil value) is not a type" ||
     errContains goErr "(built-in) must be called" ||
     errContains goErr "redeclared in this block" ||
     errContains goErr "illegal byte order mark" ||
     errContains goErr "unknown escape sequence")

/-- Suppressions for "go/types accepts, gccgo rejects", source lines 134-163
(the outer guard and the inner `return 0` conditions, in source order). -/
def step2C (data : String) (goErr gccgoErr : Option String) : Bool :=
  goErr.isNone && gccgoErr.isSome &&
    (errContains gccgoErr "error: string index out of bounds" ||
     errContains gccgoErr "error: integer constant overflow" ||
     reSearchStr issue11533 data ||
     (strContains data "0i" &&
       (errContains gccgoErr "incompatible types in binary expression" ||
        errContains gccgoErr "initialization expression has wrong type")) ||
     errContains gccgoErr "invalid character 0x37f in input file" ||
     errContains gccgoErr "error: incompatible types in binary expression")

/-- Broken-gccgo-installation workaround, source lines 165-169. -/
def step2D (goErr gccgoErr : Option String) : Bool :=
  goErr.isNone && errContains gccgoErr ": error: import file "

/-- Issue 11528 suppression for either direction of disagreement,
source lines 171-174. -/
def step2E (data : String) (goErr gccgoErr : Option String) : Bool :=
  ((goErr.isNone && gccgoErr.isSome) || (goErr.isSome && gccgoErr.isNone)) &&
    reSearchStr issue11528 data

/-- Disjunction of all known-asymmetric-divergence (step 2) suppressions. -/
def step2Any (data : String) (goErr gcErr gccgoErr : Option String) : Bool :=
  step2A goErr gcErr || step2B data goErr gccgoErr || step2C data goErr gccgoErr ||
    step2D goErr gccgoErr || step2E data goErr gccgoErr

/-- Curated, already-filed gc crash signatures, source lines 178-189. -/
def gcCrashSuppress (gcErr : Option String) : Bool :=
  errContains gcErr "internal compiler error: out of fixed registers" ||
  errContains gcErr "internal compiler error: naddr: bad HMUL" ||
  errContains gcErr "internal compiler error: treecopy Name"

/-- Curated, already-filed gccgo crash signatures, source lines 195-268. -/
def gccgoCrashSuppress (gccgoErr : Option String) : Bool :=
  errContains gccgoErr "warning: no arguments for builtin function ‘print’" ||
  errContains gccgoErr "error: constant refers to itself" ||
  errContains gccgoErr "go1: internal compiler error: in set_type, at go/gofrontend/expressions.cc" ||
  errContains gccgoErr "go1: internal compiler error: in global_variable_set_init, at go/go-gcc.cc" ||
  errContains gccgoErr "go1: internal compiler error: in wide_int_to_tree, at tree.c" ||
  errContains gccgoErr "go1: internal compiler error: in record_var_depends_on, at go/gofrontend/gogo.h" ||
  errContains gccgoErr "go1: internal compiler error: in Builtin_call_expression, at go/gofrontend/expressions.cc" ||
  errContains gccgoErr "go1: internal compiler error: in check_bounds, at go/gofrontend/expressions.cc" ||
  errContains gccgoErr "go1: internal compiler error: in do_determine_type, at go/gofrontend/expressions.h" ||
  errContains gccgoErr "go1: internal compiler error: in backend_numeric_constant_expression, at go/gofrontend/expressions.cc" ||
  errContains gccgoErr "go1: internal compiler error: in declare_function, at go/gofrontend/gogo.cc" ||
  errContains gccgoErr "gcc/go/gofrontend/expressions.cc:5756" ||
  errContains gccgoErr "Send_statement::do_flatten" ||
  errContains gccgoErr "internal compiler error: in do_get_backend, at go/gofrontend/expressions.cc" ||
  errContains gccgoErr "go1: internal compiler error: in type_size, at go/go-gcc.cc" ||
  errContains gccgoErr "go1: internal compiler error: in create_tmp_var, at gimple-expr.c" ||
  errContains gccgoErr "go1: internal compiler error: in start_function, at go/gofrontend/gogo.cc" ||
  errContains gccgoErr "go1: internal compiler error: in methods, at go/gofrontend/types.cc"

/-- Curated AddressSanitizer crash signature, source lines 274-277. -/
def asanCrashSuppress (gccgoErr : Option String) : Bool :=
  errContains gccgoErr " in Lex::skip_cpp_comment() ../../gcc/go/gofrontend/lex.cc"

/-- The three-way disagreement condition, source line 282:
`(goErr == nil) != (gcErr == nil) || (goErr == nil) != (gccgoErr == nil)`. -/
def verdictsDisagree (goErr gcErr gccgoErr : Option String) : Bool :=
  (goErr.isNone != gcErr.isNone) || (goErr.isNone != gccgoErr.isNone)

/-- Source line 296: `bytes.Replace(data, []byte{'\r'}, []byte{' '}, -1)`. -/
def replaceCR (s : String) : String :=
  String.mk (s.toList.map (fun c => if c == '\r' then ' ' else c))

/-- Source lines 177-309: the crash-signature checks, the disagreement check,
the all-agree-invalid return, and the reformat round-trip tail of `Fuzz`.
`goErr`, `gcErr`, `gccgoErr` are the three verdicts already computed by the
caller; `gotypesF` is only used by the disabled (`if false`) post-format
re-validation, kept verbatim from the source. -/
def fuzzCrashStage (gotypesF : String → Option String)
    (formatSource : String → Except String String)
    (data : String) (goErr gcErr gccgoErr : Option String) : FuzzResult :=
  if errMatches gcCrash gcErr then
    if gcCrashSuppress gcErr then .ret 0 else .panicked "gc compiler crashed"
  else if errMatches gccgoCrash gccgoErr then
    if gccgoCrashSuppress gccgoErr then .ret 0 else .panicked "gccgo compiler crashed"
  else if errMatches asanCrash gccgoErr then
    if asanCrashSuppress gccgoErr then .ret 0 else .panicked "gccgo compiler crashed"
  else if verdictsDisagree goErr gcErr gccgoErr then
    .panicked "gc, gccgo and go/types disagree"
  else if goErr.isSome then
    .ret 0
  else if reSearchStr formatBug1 data || reSearchStr formatBug2 data then
    .ret 1
  else
    match formatSource (replaceCR data) with
    | .error e => .panicked e
    | .ok data1 =>
      if false then
        match gotypesF data1 with
        | some _ => .panicked "program become invalid after gofmt"
        | none => .ret 1
      else .ret 1

/-- The oracle entry point `Fuzz` (source lines 38-310), parameterized by the
three external collaborators.  Note the source's `gcErr := goErr` aliasing
(line 49, the real `gc` invocation being commented out) is kept verbatim. -/
def Fuzz (gotypesF gccgoF : String → Option String)
    (formatSource : String → Except String String) (data : String) : FuzzResult :=
  if reSearchStr bigNum data then .ret 0
  else if reSearchStr issue11531 data then .ret 0
  else
    let goErr := gotypesF data
    let gcErr := goErr
    let gccgoErr := gccgoF data
    if step2A goErr gcErr then .ret 0
    else if step2B data goErr gccgoErr then .ret 0
    else if step2C data goErr gccgoErr then .ret 0
    else if step2D goErr gccgoErr then .ret 0
    else if step2E data goErr gccgoErr then .ret 0
    else fuzzCrashStage gotypesF formatSource data goErr gcErr gccgoErr

/-- Modelled from the claim: the deployed oracle as a plain two-way comparison
between the reference front end (go/types) and gccgo.  It is `Fuzz` with the
dead gc arm removed: the go/types-vs-gc suppressions (`step2A`) are dropped and
the disagreement check keeps only its reference-vs-gccgo half.  The gc
crash-signature check remains, applied (as in the deployed code) to the
reference verdict's text, to which `gcErr` is aliased. -/
def FuzzTwoWay (gotypesF gccgoF : String → Option String)
    (formatSource : String → Except String String) (data : String) : FuzzResult :=
  if reSearchStr bigNum data then .ret 0
  else if reSearchStr issue11531 data then .ret 0
  else
    let goErr := gotypesF data
    let gccgoErr := gccgoF data
    if step2B data goErr gccgoErr then .ret 0
    else if step2C data goErr gccgoErr then .ret 0
    else if step2D goErr gccgoErr then .ret 0
    else if step2E data goErr gccgoErr then .ret 0
    else if errMatches gcCrash goErr then
      if gcCrashSuppress goErr then .ret 0 else .panicked "gc compiler crashed"
    else if errMatches gccgoCrash gccgoErr then
      if gccgoCrashSuppress gccgoErr then .ret 0 else .panicked "gccgo compiler crashed"
    else if errMatches asanCrash gccgoErr then
      if asanCrashSuppress gccgoErr then .ret 0 else .panicked "gccgo compiler crashed"
    else if goErr.isNone != gccgoErr.isNone then
      .panicked "gc, gccgo and go/types disagree"
    else if goErr.isSome then
      .ret 0
    else if reSearchStr formatBug1 data || reSearchStr formatBug2 data then
      .ret 1
    else
      match formatSource (replaceCR data) with
      | .error e => .panicked e
      | .ok data1 =>
        if false then
          match gotypesF data1 with
          | some _ => .panicked "program become invalid after gofmt"
          | none => .ret 1
        else .ret 1

/-- A synthetic gccgo output that matches the `gccgoCrash` internal-compiler-
error signature, contains none of the curated crash suppressions, but does
contain the step-2 message "error: string index out of bounds". -/
def crashStepTwoText : String :=
  "\ngo1: internal compiler error: error: string index out of bounds"

/-- A synthetic gccgo output that matches `gccgoCrash`, contains none of the
curated crash suppressions, but contains the step-2 message
"error: integer constant overflow". -/
def crashOverflowText : String :=
  "\ngo1: internal compiler error: error: integer constant overflow"

/-- A synthetic gccgo output that matches `gccgoCrash` and matches neither any
curated crash suppression nor any step-2 message pattern. -/
def mysteryCrashText : String :=
  "\ngo1: internal compiler error: mystery"

/-- A synthetic gc output matching `gcCrash` and containing the curated
signature "internal compiler error: out of fixed registers". -/
def gcRegistersCrashText : String :=
  "\n/tmp/fuzz.gc123:4: internal compiler error: out of fixed registers"

/-- A formatter stub that fails exactly on the raw one-byte input "\r" and
succeeds on everything else. -/
def fmtFailsOnRaw : String → Except String String :=
  fun s => if s == "\r" then Except.error "fmt failed" else Except.ok ""

/-- A formatter stub that succeeds exactly on the one-byte input " " (a single
space) and fails on everything else. -/
def fmtOkOnSpace : String → Except String String :=
  fun s => if s == " " then Except.ok "fmt" else Except.error "unexpected"

/-- A formatter stub that succeeds exactly on the one-byte input " " (a single
space) and fails on everything else. -/
def fmtSpaceProbe : String → Except String String :=
  fun s => if s == " " then Except.ok "" else Except.error "not normalized"

/-- The final oracle verdict determined by the formatter's result
(source lines 297-309: `panic(err)` on failure, `return 1` on success). -/
def formatVerdict (r : Except String String) : FuzzResult :=
  match r with
  | .ok _ => .ret 1
  | .error e => .panicked e

/-- Under the deployed `gcErr := goErr` aliasing, none of the go/types-vs-gc
suppressions (source lines 51-77) can ever fire. -/
theorem step2A_self (e : Option String) : step2A e e = false := by
  cases e <;> rfl

/-- If neither pre-filter matches and no step-2 suppression fires, `Fuzz`
reduces to its crash-check stage. -/
theorem Fuzz_past_step2 (gF ggF : String → Option String)
    (fmtF : String → Except String String) (data : String)
    (hp1 : reSearchStr bigNum data = false) (hp2 : reSearchStr issue11531 data = false)
    (hA : step2A (gF data) (gF data) = false)
    (hB : step2B data (gF data) (ggF data) = false)
    (hC : step2C data (gF data) (ggF data) = false)
    (hD : step2D (gF data) (ggF data) = false)
    (hE : step2E data (gF data) (ggF data) = false) :
    Fuzz gF ggF fmtF data = fuzzCrashStage gF fmtF data (gF data) (gF data) (ggF data) := by
  simp [Fuzz, hp1, hp2, hA, hB, hC, hD, hE]

/-- When both adapters accept and neither pre-filter nor format-bug pattern
matches, `Fuzz` returns the formatter's verdict on the CR-normalized input. -/
theorem Fuzz_reaches_format (gF ggF : String → Option String)
    (fmtF : String → Except String String) (data : String)
    (hg : gF data = none) (hgg : ggF data = none)
    (hp1 : reSearchStr bigNum data = false) (hp2 : reSearchStr issue11531 data = false)
    (hf1 : reSearchStr formatBug1 data = false) (hf2 : reSearchStr formatBug2 data = false) :
    Fuzz gF ggF fmtF data = formatVerdict (fmtF (replaceCR data)) := by
  cases hfmt : fmtF (replaceCR data) <;>
    simp [Fuzz, hp1, hp2, hg, hgg, step2A, step2B, step2C, step2D, step2E, errContains,
      errMatches, fuzzCrashStage, verdictsDisagree, hf1, hf2, hfmt, formatVerdict]

/-- When both adapters accept, no pre-filter matches, and a format-bug pattern
matches, `Fuzz` returns 1 whatever the formatter would do. -/
theorem Fuzz_formatBug (gF ggF : String → Option String)
    (fmtF : String → Except String String) (data : String)
    (hg : gF data = none) (hgg : ggF data = none)
    (hp1 : reSearchStr bigNum data = false) (hp2 : reSearchStr issue11531 data = false)
    (hfb : (reSearchStr formatBug1 data || reSearchStr formatBug2 data) = true) :
    Fuzz gF ggF fmtF data = .ret 1 := by
  simp [Fuzz, hp1, hp2, hg, hgg, step2A, step2B, step2C, step2D, step2E, errContains,
    errMatches, fuzzCrashStage, verdictsDisagree, hfb]

/-- C1 counterexample: an input on which gccgo's verdict is Crashed (its output
matches the `gccgoCrash` internal-compiler-error signature) and no curated
crash signature matches, yet `Fuzz` returns Skip (0): the step-2 suppression
"error: string index out of bounds" intercepts the crashed verdict because the
code consults the known-asymmetric-divergence predicates (source lines 51-174)
before the crash checks (source lines 177-280), contrary to the claimed
crash-first ordering which would demand Fatal here. -/
theorem C1_counterexample :
    errMatches gccgoCrash (some crashStepTwoText) = true ∧
    gccgoCrashSuppress (some crashStepTwoText) = false ∧
    Fuzz (fun _ => none) (fun _ => some crashStepTwoText) (fun _ => Except.ok "") "" =
      FuzzResult.ret 0 :=
  ⟨rfl, rfl, rfl⟩

/-- C1 (amended): crash escalation is evaluated only after the pre-filters and
the step-2 known-asymmetric-divergence suppressions; for every input on which
no pre-filter or step-2 predicate matches, a Crashed external verdict's
disposition is decided by the crash-signature suppression check for that
implementation — Skip if a curated signature matches, Fatal otherwise (the gc
check first, then the gccgo internal-compiler-error check, then the
AddressSanitizer check). -/
theorem C1_crash_after_step2 (gF ggF : String → Option String)
    (fmtF : String → Except String String) (data : String)
    (hp1 : reSearchStr bigNum data = false) (hp2 : reSearchStr issue11531 data = false)
    (hA : step2A (gF data) (gF data) = false)
    (hB : step2B data (gF data) (ggF data) = false)
    (hC : step2C data (gF data) (ggF data) = false)
    (hD : step2D (gF data) (ggF data) = false)
    (hE : step2E data (gF data) (ggF data) = false) :
    (errMatches gcCrash (gF data) = true →
      Fuzz gF ggF fmtF data =
        if gcCrashSuppress (gF data) then FuzzResult.ret 0
        else FuzzResult.panicked "gc compiler crashed") ∧
    (errMatches gcCrash (gF data) = false → errMatches gccgoCrash (ggF data) = true →
      Fuzz gF ggF fmtF data =
        if gccgoCrashSuppress (ggF data) then FuzzResult.ret 0
        else FuzzResult.panicked "gccgo compiler crashed") ∧
    (errMatches gcCrash (gF data) = false → errMatches gccgoCrash (ggF data) = false →
      errMatches asanCrash (ggF data) = true →
      Fuzz gF ggF fmtF data =
        if asanCrashSuppress (ggF data) then FuzzResult.ret 0
        else FuzzResult.panicked "gccgo compiler crashed") := by
  rw [Fuzz_past_step2 gF ggF fmtF data hp1 hp2 hA hB hC hD hE]
  refine ⟨fun h1 => ?_, fun h1 h2 => ?_, fun h1 h2 h3 => ?_⟩ <;>
    simp [fuzzCrashStage, *]

/-- C1 witness: a gccgo crash with no curated signature, reached past step 2,
escalates Fatal. -/
theorem C1_crash_after_step2_witness :
    Fuzz (fun _ => none) (fun _ => some mysteryCrashText) (fun _ => Except.ok "") "" =
      FuzzResult.panicked "gccgo compiler crashed" := by
  have h := (C1_crash_after_step2 (fun _ => none) (fun _ => some mysteryCrashText)
    (fun _ => Except.ok "") "" rfl rfl rfl rfl rfl rfl rfl).2.1 rfl rfl
  exact h.trans (by decide)

/-- C2: whenever the three validity booleans are not all equal and no
pre-filter, step-2 suppression, or crash-signature suppression matches, `Fuzz`
panics (Fatal), never returning Pass or Skip. -/
theorem C2_unmatched_disagreement_fatal (gF ggF : String → Option String)
    (fmtF : String → Except String String) (data : String)
    (hp1 : reSearchStr bigNum data = false) (hp2 : reSearchStr issue11531 data = false)
    (hA : step2A (gF data) (gF data) = false)
    (hB : step2B data (gF data) (ggF data) = false)
    (hC : step2C data (gF data) (ggF data) = false)
    (hD : step2D (gF data) (ggF data) = false)
    (hE : step2E data (gF data) (ggF data) = false)
    (hgcS : errMatches gcCrash (gF data) = true → gcCrashSuppress (gF data) = false)
    (hggS : errMatches gccgoCrash (ggF data) = true → gccgoCrashSuppress (ggF data) = false)
    (hasS : errMatches asanCrash (ggF data) = true → asanCrashSuppress (ggF data) = false)
    (hdis : verdictsDisagree (gF data) (gF data) (ggF data) = true) :
    (Fuzz gF ggF fmtF data).isFatal = true := by
  rw [Fuzz_past_step2 gF ggF fmtF data hp1 hp2 hA hB hC hD hE]
  unfold fuzzCrashStage
  cases h1 : errMatches gcCrash (gF data) with
  | true => simp [hgcS h1, FuzzResult.isFatal]
  | false =>
    cases h2 : errMatches gccgoCrash (ggF data) with
    | true => simp [hggS h2, FuzzResult.isFatal]
    | false =>
      cases h3 : errMatches asanCrash (ggF data) with
      | true => simp [hasS h3, FuzzResult.isFatal]
      | false => simp [hdis, FuzzResult.isFatal]

/-- C2 witness: reference accepts, gccgo rejects with an unrecognized message,
nothing matches, so the oracle panics. -/
theorem C2_unmatched_disagreement_fatal_witness :
    (Fuzz (fun _ => none) (fun _ => some "x") (fun _ => Except.ok "") "").isFatal = true :=
  C2_unmatched_disagreement_fatal (fun _ => none) (fun _ => some "x") (fun _ => Except.ok "") ""
    rfl rfl rfl rfl rfl rfl rfl (fun _ => rfl) (fun _ => rfl) (fun _ => rfl) rfl

/-- C3: when all three implementations report an error and neither error text
matches any of the three crash signatures, `Fuzz` returns Skip (0); neither
the disagreement panic nor a crash panic is reachable. -/
theorem C3_all_invalid_skip (gF ggF : String → Option String)
    (fmtF : String → Except String String) (data eg eh : String)
    (hg : gF data = some eg) (hgg : ggF data = some eh)
    (h1 : reSearchStr gcCrash eg = false) (h2 : reSearchStr gccgoCrash eg = false)
    (h3 : reSearchStr asanCrash eg = false) (h4 : reSearchStr gcCrash eh = false)
    (h5 : reSearchStr gccgoCrash eh = false) (h6 : reSearchStr asanCrash eh = false) :
    Fuzz gF ggF fmtF data = FuzzResult.ret 0 := by
  simp [Fuzz, hg, hgg, step2A, step2B, step2C, step2D, step2E, errContains, errMatches,
    fuzzCrashStage, verdictsDisagree, h1, h5, h6]

/-- C3 witness: three plain rejections yield Skip. -/
theorem C3_all_invalid_skip_witness :
    Fuzz (fun _ => some "a") (fun _ => some "b") (fun _ => Except.ok "") "" = FuzzResult.ret 0 :=
  C3_all_invalid_skip (fun _ => some "a") (fun _ => some "b") (fun _ => Except.ok "") "" "a" "b"
    rfl rfl rfl rfl rfl rfl rfl rfl

/-- C4 counterexample: a gccgo output matching the `gccgoCrash` class and
containing none of the curated signatures must, by the claim, escalate Fatal;
the code instead returns Skip (0) because the step-2 suppression
"error: integer constant overflow" fires first. -/
theorem C4_counterexample :
    errMatches gccgoCrash (some crashOverflowText) = true ∧
    gccgoCrashSuppress (some crashOverflowText) = false ∧
    Fuzz (fun _ => none) (fun _ => some crashOverflowText) (fun _ => Except.ok "") "" =
      FuzzResult.ret 0 :=
  ⟨rfl, rfl, rfl⟩

/-- C4 (amended): provided no pre-filter or step-2 suppression matches, crash
classification is conservative: an error text matching a crash class pattern
yields Skip (0) when it contains a curated signature of that class, and Fatal
(panic) when it contains none. -/
theorem C4_crash_matching_conservative (gF ggF : String → Option String)
    (fmtF : String → Except String String) (data : String)
    (hp1 : reSearchStr bigNum data = false) (hp2 : reSearchStr issue11531 data = false)
    (hA : step2A (gF data) (gF data) = false)
    (hB : step2B data (gF data) (ggF data) = false)
    (hC : step2C data (gF data) (ggF data) = false)
    (hD : step2D (gF data) (ggF data) = false)
    (hE : step2E data (gF data) (ggF data) = false) :
    (errMatches gcCrash (gF data) = true → gcCrashSuppress (gF data) = true →
      Fuzz gF ggF fmtF data = FuzzResult.ret 0) ∧
    (errMatches gcCrash (gF data) = true → gcCrashSuppress (gF data) = false →
      Fuzz gF ggF fmtF data = FuzzResult.panicked "gc compiler crashed") ∧
    (errMatches gcCrash (gF data) = false → errMatches gccgoCrash (ggF data) = true →
      gccgoCrashSuppress (ggF data) = true → Fuzz gF ggF fmtF data = FuzzResult.ret 0) ∧
    (errMatches gcCrash (gF data) = false → errMatches gccgoCrash (ggF data) = true →
      gccgoCrashSuppress (ggF data) = false →
      Fuzz gF ggF fmtF data = FuzzResult.panicked "gccgo compiler crashed") ∧
    (errMatches gcCrash (gF data) = false → errMatches gccgoCrash (ggF data) = false →
      errMatches asanCrash (ggF data) = true → asanCrashSuppress (ggF data) = true →
      Fuzz gF ggF fmtF data = FuzzResult.ret 0) ∧
    (errMatches gcCrash (gF data) = false → errMatches gccgoCrash (ggF data) = false →
      errMatches asanCrash (ggF data) = true → asanCrashSuppress (ggF data) = false →
      Fuzz gF ggF fmtF data = FuzzResult.panicked "gccgo compiler crashed") := by
  rw [Fuzz_past_step2 gF ggF fmtF data hp1 hp2 hA hB hC hD hE]
  refine ⟨?_, ?_, ?_, ?_, ?_, ?_⟩ <;> intros <;> simp [fuzzCrashStage, *]

/-- C4 witness: a gc crash containing the curated "out of fixed registers"
signature is suppressed to Skip. -/
theorem C4_crash_matching_conservative_witness :
    Fuzz (fun _ => some gcRegistersCrashText) (fun _ => some "zzz") (fun _ => Except.ok "") "" =
      FuzzResult.ret 0 :=
  (C4_crash_matching_conservative (fun _ => some gcRegistersCrashText) (fun _ => some "zzz")
    (fun _ => Except.ok "") "" rfl rfl rfl rfl rfl rfl rfl).1 rfl rfl

/-- C5: first-match-wins — if any step-2 known-asymmetric-divergence
suppression matches (and the verdicts satisfy the generic not-all-equal
disagreement condition), `Fuzz` returns Skip (0); the Fatal disagreement
escalation is not reached. -/
theorem C5_first_match_wins (gF ggF : String → Option String)
    (fmtF : String → Except String String) (data : String)
    (hs : step2Any data (gF data) (gF data) (ggF data) = true)
    (hdis : verdictsDisagree (gF data) (gF data) (ggF data) = true) :
    Fuzz gF ggF fmtF data = FuzzResult.ret 0 := by
  simp only [step2Any, Bool.or_eq_true] at hs
  rcases hs with ((((h | h) | h) | h) | h) <;> simp [Fuzz, h]

/-- C5 witness: reference accepts, gccgo rejects with the curated
"string index out of bounds" message; the suppression wins over the
disagreement escalation. -/
theorem C5_first_match_wins_witness :
    Fuzz (fun _ => none) (fun _ => some "error: string index out of bounds")
      (fun _ => Except.ok "") "" = FuzzResult.ret 0 :=
  C5_first_match_wins (fun _ => none) (fun _ => some "error: string index out of bounds")
    (fun _ => Except.ok "") "" rfl rfl

/-- C6 counterexample: all three implementations accept the input "\r", the
formatter fails on the raw input bytes, yet `Fuzz` returns Pass (1): the
formatter is not invoked on the input itself but on its CR-normalized copy,
so the claim "the formatter is invoked on the input and its result becomes
the final oracle verdict" is false as stated. -/
theorem C6_counterexample :
    fmtFailsOnRaw "\r" = Except.error "fmt failed" ∧
    Fuzz (fun _ => none) (fun _ => none) fmtFailsOnRaw "\r" = FuzzResult.ret 1 :=
  ⟨rfl, rfl⟩

/-- C6 (amended): for every input on which all three implementations agree
Valid, that passed the pre-filters and matched no suppression (including the
formatBug1/formatBug2 round-trip suppressions), the Reformat Round-Trip Check
runs on the input's CR-normalized copy and its result becomes the final
oracle verdict (Pass on success). -/
theorem C6_roundtrip_runs (gF ggF : String → Option String)
    (fmtF : String → Except String String) (data : String)
    (hg : gF data = none) (hgg : ggF data = none)
    (hp1 : reSearchStr bigNum data = false) (hp2 : reSearchStr issue11531 data = false)
    (hf1 : reSearchStr formatBug1 data = false) (hf2 : reSearchStr formatBug2 data = false) :
    Fuzz gF ggF fmtF data = formatVerdict (fmtF (replaceCR data)) :=
  Fuzz_reaches_format gF ggF fmtF data hg hgg hp1 hp2 hf1 hf2

/-- C6 witness: on the all-valid input "\r" the final verdict is the
formatter's verdict on the normalized copy " ". -/
theorem C6_roundtrip_runs_witness :
    Fuzz (fun _ => none) (fun _ => none) fmtOkOnSpace "\r" = FuzzResult.ret 1 := by
  have h := C6_roundtrip_runs (fun _ => none) (fun _ => none) fmtOkOnSpace "\r"
    rfl rfl rfl rfl rfl rfl
  exact h.trans (by decide)

/-- C7: if the formatting pass fails on an input all three implementations
agreed is valid (and that reached the round-trip check), `Fuzz` panics with
the formatter's error rather than returning Pass or Skip. -/
theorem C7_formatter_failure_fatal (gF ggF : String → Option String)
    (fmtF : String → Except String String) (data e : String)
    (hg : gF data = none) (hgg : ggF data = none)
    (hp1 : reSearchStr bigNum data = false) (hp2 : reSearchStr issue11531 data = false)
    (hf1 : reSearchStr formatBug1 data = false) (hf2 : reSearchStr formatBug2 data = false)
    (hfmt : fmtF (replaceCR data) = Except.error e) :
    Fuzz gF ggF fmtF data = FuzzResult.panicked e := by
  have h := Fuzz_reaches_format gF ggF fmtF data hg hgg hp1 hp2 hf1 hf2
  rw [h, hfmt]
  rfl

/-- C7 witness: a formatter that always fails makes the oracle panic with its
error on an all-valid input. -/
theorem C7_formatter_failure_fatal_witness :
    Fuzz (fun _ => none) (fun _ => none) (fun _ => Except.error "boom") "" =
      FuzzResult.panicked "boom" :=
  C7_formatter_failure_fatal (fun _ => none) (fun _ => none) (fun _ => Except.error "boom")
    "" "boom" rfl rfl rfl rfl rfl rfl rfl

/-- C8: an input matching the bigNum or issue11531 pre-filter makes `Fuzz`
return Skip (0) immediately, for every choice of the three adapters — i.e.
before (and independently of) any implementation's verdict on the input. -/
theorem C8_prefilter_skip (gF ggF : String → Option String)
    (fmtF : String → Except String String) (data : String) :
    (reSearchStr bigNum data = true → Fuzz gF ggF fmtF data = FuzzResult.ret 0) ∧
    (reSearchStr issue11531 data = true → Fuzz gF ggF fmtF data = FuzzResult.ret 0) := by
  constructor <;> intro h <;> simp [Fuzz, h]

/-- C8 witness: "." matches bigNum and ",," matches issue11531; both are
skipped whatever the adapters would say. -/
theorem C8_prefilter_skip_witness :
    Fuzz (fun _ => none) (fun _ => none) (fun _ => Except.ok "") "." = FuzzResult.ret 0 ∧
    Fuzz (fun _ => none) (fun _ => none) (fun _ => Except.ok "") ",," = FuzzResult.ret 0 :=
  ⟨(C8_prefilter_skip (fun _ => none) (fun _ => none) (fun _ => Except.ok "") ".").1 rfl,
   (C8_prefilter_skip (fun _ => none) (fun _ => none) (fun _ => Except.ok "") ",,").2 rfl⟩

/-- C9: because of the `gcErr := goErr` aliasing the deployed oracle is
extensionally the two-way go/types-vs-gccgo comparison `FuzzTwoWay`; moreover
every suppression conditioned on one of `goErr`/`gcErr` being nil and the
other not (`step2A`) is dead, and the reference-vs-gc half of the
disagreement condition is identically false. -/
theorem C9_two_way_equivalence :
    (∀ (gF ggF : String → Option String) (fmtF : String → Except String String) (data : String),
      Fuzz gF ggF fmtF data = FuzzTwoWay gF ggF fmtF data) ∧
    (∀ e : Option String, step2A e e = false) ∧
    (∀ e : Option String, (e.isNone != e.isNone) = false) := by
  refine ⟨fun gF ggF fmtF data => ?_, step2A_self, fun e => bne_self_eq_false _⟩
  cases hfs : fmtF (replaceCR data) <;>
    simp [Fuzz, FuzzTwoWay, fuzzCrashStage, verdictsDisagree, step2A_self, hfs]

/-- C10: when all three implementations agree Valid (and the input passed the
pre-filters): if formatBug1 or formatBug2 matches, `Fuzz` returns Pass (1)
without consulting the formatter at all (the result is the same for every
formatter); otherwise the formatter is applied not to the original bytes but
to `replaceCR data`, the copy with every carriage return replaced by a space,
and its result decides the verdict. -/
theorem C10_format_input_normalization (gF ggF : String → Option String)
    (fmtF : String → Except String String) (data : String)
    (hg : gF data = none) (hgg : ggF data = none)
    (hp1 : reSearchStr bigNum data = false) (hp2 : reSearchStr issue11531 data = false) :
    ((reSearchStr formatBug1 data || reSearchStr formatBug2 data) = true →
      ∀ fmtF2 : String → Except String String, Fuzz gF ggF fmtF2 data = FuzzResult.ret 1) ∧
    (reSearchStr formatBug1 data = false → reSearchStr formatBug2 data = false →
      Fuzz gF ggF fmtF data = formatVerdict (fmtF (replaceCR data))) :=
  ⟨fun hfb fmtF2 => Fuzz_formatBug gF ggF fmtF2 data hg hgg hp1 hp2 hfb,
   fun hf1 hf2 => Fuzz_reaches_format gF ggF fmtF data hg hgg hp1 hp2 hf1 hf2⟩

/-- C10 witness: "*/;" (formatBug1) passes even under an always-failing
formatter; "\r" is formatted as its normalized copy " ". -/
theorem C10_format_input_normalization_witness :
    Fuzz (fun _ => none) (fun _ => none) (fun _ => Except.error "ignored") "*/;" =
      FuzzResult.ret 1 ∧
    Fuzz (fun _ => none) (fun _ => none) fmtSpaceProbe "\r" = FuzzResult.ret 1 := by
  constructor
  · exact (C10_format_input_normalization (fun _ => none) (fun _ => none)
      (fun _ => Except.error "ignored") "*/;" rfl rfl rfl rfl).1 rfl _
  · have h := (C10_format_input_normalization (fun _ => none) (fun _ => none)
      fmtSpaceProbe "\r" rfl rfl rfl rfl).2 rfl rfl
    exact h.trans (by decide)

end GoTypes
